import Mathlib

/-!
Shallow embedding of the Sawtooth transaction-processor conformance-test
harness (`sawtooth_processor_test/tester.py`): the message envelope, the
comparator registry, the registration handshake, and the expectation
engine (`expect`, `expect_one`, `respond`, `receive`, `_compare`,
`compare_set_request`).

Modelling conventions:
- Protobuf serialization is modelled as the identity: a `Message`'s
  `content` field holds the decoded payload value directly, and decoding
  with a protobuf class succeeds exactly when the class matches the
  payload's own kind (the spec's Envelope invariant: content decodes under
  exactly the payload type implied by `message_type`).
- Python exceptions become the `TesterError` error type of an `Except`.
  In particular a reference to an unbound Python name is `nameError`.
- The blocking transport read is modelled by passing the transport-level
  inputs (the observed peer identity and the wire message) as arguments.
-/

namespace SawtoothTester

/-- One entry of a state-set request: an (address, data) pair.
Bytes are modelled as strings. -/
structure Entry where
  address : String
  data : String
  deriving DecidableEq, Repr

/-- The state-set-request payload: an ordered sequence of entries. -/
structure SetRequest where
  entries : List Entry
  deriving DecidableEq, Repr

/-- Decoded message payloads. `setRequest` and `registerRequest` are the
two payload schemas the harness treats specially; every other payload
kind is `other tag value`, carrying its semantic type tag and an opaque
value. -/
inductive Payload where
  | setRequest (entries : List Entry)
  | registerRequest (family : String) (version : String)
      (encoding : String) (namespaces : List String)
  | other (tag : String) (value : String)
  deriving DecidableEq, Repr

/-- Modelled from the spec: the Type Registry (`message_types.py`, whose
source is not among the given files) maps each payload kind to its
semantic wire type tag; `to_message_type` applied to a payload object
returns that tag. -/
def to_message_type : Payload → String
  | .setRequest _ => "state/setrequest"
  | .registerRequest _ _ _ _ => "tp/register"
  | .other tag _ => tag

/-- Modelled from the spec: decoding a payload with the protobuf class the
Type Registry assigns to wire tag `message_type`. Serialization is the
identity, so decoding succeeds exactly when the tag matches the payload's
own kind. -/
def parse_as (message_type : String) (content : Payload) : Option Payload :=
  if to_message_type content = message_type then some content else none

/-- The wire Envelope (`validator_pb2.Message`): semantic type tag,
decoded payload (serialization modelled as identity), optional
correlation id, and routing identity. -/
structure Message where
  message_type : String
  content : Payload
  correlation_id : Option String
  sender : String
  deriving DecidableEq, Repr

/-- A registered comparator: a binary predicate over two decoded
payloads. -/
abbrev Comparator := Payload → Payload → Bool

/-- The comparator registry `self._comparators`: a map from semantic type
tag to comparator. -/
abbrev ComparatorMap := String → Option Comparator

/-- The harness state retained across calls: the comparator registry and
the bound transaction-processor identity `self._tp_ident` (`none` before
a successful registration handshake). -/
structure TesterState where
  comparators : ComparatorMap
  tp_ident : Option String

/-- Errors raised by the harness, as an explicit error type:
`unexpectedMessage` is `UnexpectedMessageException(expected, received)`;
`nameError` is a Python `NameError` for an unbound name; `decodeError` is
a protobuf parse failure; `typeError` is a Python `TypeError` (raised by
`bytes(None, UTF-8)` when sending with no bound identity). -/
inductive TesterError where
  | unexpectedMessage (expected : Payload) (received : Payload)
  | nameError (name : String)
  | decodeError
  | typeError (msg : String)
  deriving DecidableEq, Repr

/-- `register_comparator(message_type, comparator)`: installs or replaces
the comparator stored under `message_type`. -/
def register_comparator (cmps : ComparatorMap) (message_type : String)
    (comparator : Comparator) : ComparatorMap :=
  fun t => if t = message_type then some comparator else cmps t

/-- The (address, data) pair projected from one entry, as built by the
list comprehensions in `compare_set_request`. -/
def entryPair (e : Entry) : String × String := (e.address, e.data)

/-- The built-in `compare_set_request(req1, req2)`: false on an entry
count mismatch, then false unless the ordered lists of (address, data)
pairs are equal, else true. -/
def compare_set_request (req1 req2 : SetRequest) : Bool :=
  if req1.entries.length ≠ req2.entries.length then
    false
  else
    let entries1 : List (String × String) := req1.entries.map entryPair
    let entries2 : List (String × String) := req2.entries.map entryPair
    if entries1 ≠ entries2 then
      false
    else
      true

/-- `receive()`: parse the wire bytes into a `Message`, then overwrite
its `sender` field with the identity the transport observed for this
read. -/
def receive (ident : String) (wire : Message) : Message :=
  { wire with sender := ident }

/-- `register_processor()`: one `receive()`; if the message type is not
the registration tag, return `false` without touching the state;
otherwise bind the sender identity as `tp_ident`, decode the registration
payload, and return `true`. Note the Python code assigns `self._tp_ident`
before the payload parse, so a parse failure surfaces as an error. -/
def register_processor (s : TesterState) (ident : String) (wire : Message) :
    Except TesterError (Bool × TesterState) :=
  let message := receive ident wire
  if message.message_type ≠ "tp/register" then
    .ok (false, s)
  else
    let s2 : TesterState := { s with tp_ident := some message.sender }
    match message.content with
    | .registerRequest _ _ _ _ => .ok (true, s2)
    | _ => .error .decodeError

/-- `send(message_content, correlation_id)`: frame the payload into an
outbound `Message` whose type tag comes from the Type Registry, whose
sender is the harness class name, and whose correlation id is the given
one; address it to the bound `tp_ident`, failing when none is bound. -/
def send (s : TesterState) (message_content : Payload)
    (correlation_id : Option String) : Except TesterError (String × Message) :=
  let message : Message :=
    { message_type := to_message_type message_content
      content := message_content
      correlation_id := correlation_id
      sender := "TransactionProcessorTester" }
  match s.tp_ident with
  | some ident => .ok (ident, message)
  | none => .error (.typeError "encoding of None identity")

/-- `respond(message_content, message)`: `send` with the correlation id
copied from the message being replied to. -/
def respond (s : TesterState) (message_content : Payload) (message : Message) :
    Except TesterError (String × Message) :=
  send s message_content message.correlation_id

/-- `_compare(obj1, obj2)`: look up a comparator under `obj1`'s semantic
type tag; if one is registered apply it to `(obj1, obj2)`, otherwise fall
back to structural equality. -/
def compare_ (s : TesterState) (obj1 obj2 : Payload) : Bool :=
  let msg_type := to_message_type obj1
  match s.comparators msg_type with
  | some c => c obj1 obj2
  | none => obj1 = obj2

/-- `expect(expected_content)`: `receive()`, decode the content with the
class implied by the message's type tag, then `_compare(received,
expected)`; on failure raise `UnexpectedMessageException(expected,
received)`, on success return the message. -/
def expect (s : TesterState) (ident : String) (wire : Message)
    (expected_content : Payload) : Except TesterError Message :=
  let message := receive ident wire
  match parse_as message.message_type message.content with
  | none => .error .decodeError
  | some received_content =>
    if compare_ s received_content expected_content then
      .ok message
    else
      .error (.unexpectedMessage expected_content received_content)

/-- `expect_one(expected_content_list)`: `receive()` and decode as in
`expect`, then scan the list for the first `exp_con` with
`_compare(exp_con, received)`; on a match return the message paired with
`expected_content_list.index(exp_con)` (the first position holding an
equal element). When no candidate matches, the Python code evaluates the
name `expected_content`, which is bound nowhere in that function, so a
`NameError` is raised instead of the documented
`UnexpectedMessageException`. -/
def expect_one (s : TesterState) (ident : String) (wire : Message)
    (expected_content_list : List Payload) :
    Except TesterError (Message × Nat) :=
  let message := receive ident wire
  match parse_as message.message_type message.content with
  | none => .error .decodeError
  | some received_content =>
    match expected_content_list.find?
        (fun exp_con => compare_ s exp_con received_content) with
    | some exp_con => .ok (message, expected_content_list.indexOf exp_con)
    | none => .error (.nameError "expected_content")

/-! ## Helper lemmas -/

/-- `compare_set_request` is the decision of equality of the projected
(address, data) pair lists: the explicit length test in the code is
subsumed because equal lists have equal lengths. -/
theorem compare_set_request_eq_decide (r1 r2 : SetRequest) :
    compare_set_request r1 r2 =
      decide (r1.entries.map entryPair = r2.entries.map entryPair) := by
  unfold compare_set_request
  by_cases h1 : r1.entries.length = r2.entries.length
  · by_cases h2 : r1.entries.map entryPair = r2.entries.map entryPair
    · simp [h1, h2]
    · simp [h1, h2]
  · have h2 : r1.entries.map entryPair ≠ r2.entries.map entryPair := fun he =>
      h1 (by simpa using congrArg List.length he)
    simp [h1, h2]

/-- With a comparator registered under the first argument's semantic
type, `_compare` applies it to `(obj1, obj2)`. -/
theorem compare_of_registered (s : TesterState) (obj1 obj2 : Payload)
    (c : Comparator) (hc : s.comparators (to_message_type obj1) = some c) :
    compare_ s obj1 obj2 = c obj1 obj2 := by
  simp only [compare_]
  rw [hc]

/-- With no comparator registered under the first argument's semantic
type, `_compare` falls back to structural equality. -/
theorem compare_of_unregistered (s : TesterState) (obj1 obj2 : Payload)
    (hc : s.comparators (to_message_type obj1) = none) :
    compare_ s obj1 obj2 = decide (obj1 = obj2) := by
  simp only [compare_]
  rw [hc]

/-- Normal form of `expect` on a well-formed wire message (content kind
matching the declared type tag). -/
theorem expect_eq (s : TesterState) (ident : String) (wire : Message)
    (expected_content : Payload)
    (hwf : to_message_type wire.content = wire.message_type) :
    expect s ident wire expected_content =
      if compare_ s wire.content expected_content then
        .ok (receive ident wire)
      else
        .error (.unexpectedMessage expected_content wire.content) := by
  simp only [expect]
  have hparse : parse_as (receive ident wire).message_type
      (receive ident wire).content = some wire.content := by
    simp [parse_as, receive, hwf]
  rw [hparse]

/-- Normal form of `expect_one` on a well-formed wire message. -/
theorem expect_one_eq (s : TesterState) (ident : String) (wire : Message)
    (lst : List Payload)
    (hwf : to_message_type wire.content = wire.message_type) :
    expect_one s ident wire lst =
      match lst.find? (fun exp_con => compare_ s exp_con wire.content) with
      | some exp_con => .ok (receive ident wire, lst.indexOf exp_con)
      | none => .error (.nameError "expected_content") := by
  simp only [expect_one]
  have hparse : parse_as (receive ident wire).message_type
      (receive ident wire).content = some wire.content := by
    simp [parse_as, receive, hwf]
  rw [hparse]

/-- When `find? p l` yields `a`, the index Python's `list.index` reports
for `a` is the index of the first element satisfying `p`. -/
theorem indexOf_eq_findIdx_of_find? {α : Type} [DecidableEq α]
    (p : α → Bool) (l : List α) :
    ∀ a : α, l.find? p = some a → l.indexOf a = l.findIdx p := by
  induction l with
  | nil => intro a h; simp [List.find?] at h
  | cons x xs ih =>
    intro a h
    by_cases hx : p x = true
    · rw [List.find?_cons_of_pos _ hx] at h
      obtain rfl : x = a := by injection h
      rw [List.indexOf_cons_self, List.findIdx_cons, hx]
      rfl
    · rw [List.find?_cons_of_neg _ (by simpa using hx)] at h
      have hpa : p a = true := List.find?_some h
      have hax : x ≠ a := fun he => hx (he ▸ hpa)
      rw [List.indexOf_cons_ne _ hax, List.findIdx_cons,
        Bool.cond_eq_ite, if_neg (by simpa using hx), ih a h]

/-! ## Claim theorems -/

/-- C5: the built-in state-set-request comparator returns true iff the
entry sequences have equal length and position-wise equal (address, data)
pairs; any length mismatch or positional difference (reorderings
included) yields false. -/
theorem compare_set_request_iff_pointwise (r1 r2 : SetRequest) :
    compare_set_request r1 r2 = true ↔
      (r1.entries.length = r2.entries.length ∧
        ∀ i : Nat, (r1.entries[i]?).map entryPair
          = (r2.entries[i]?).map entryPair) := by
  rw [compare_set_request_eq_decide, decide_eq_true_iff]
  constructor
  · intro h
    refine ⟨by simpa using congrArg List.length h, fun i => ?_⟩
    have := congrArg (fun l => l[i]?) h
    simpa [List.getElem?_map] using this
  · rintro ⟨hlen, hi⟩
    apply List.ext_getElem?
    intro n
    rw [List.getElem?_map, List.getElem?_map]
    exact hi n

/-- C10: the built-in state-set-request comparator is symmetric, so the
swapped comparator argument order between `expect` and `expect_one`
cannot change the outcome for this built-in comparator. -/
theorem compare_set_request_symm (a b : SetRequest) :
    compare_set_request a b = compare_set_request b a := by
  rw [compare_set_request_eq_decide, compare_set_request_eq_decide]
  exact decide_eq_decide.mpr eq_comm

/-- C9: the Envelope returned by `receive` carries as its `sender` the
identity the transport observed for that read, overwriting the
wire-provided sender field. -/
theorem receive_sender_eq_transport_ident (ident : String) (wire : Message) :
    (receive ident wire).sender = ident := rfl

/-- C7: an Envelope produced by `respond(payload, env)` has its
`correlation_id` equal to `env.correlation_id`, copied unchanged. -/
theorem respond_copies_correlation_id (s : TesterState) (p : Payload)
    (env : Message) (ident : String) (m : Message)
    (h : respond s p env = .ok (ident, m)) :
    m.correlation_id = env.correlation_id := by
  unfold respond send at h
  cases hs : s.tp_ident with
  | none => rw [hs] at h; exact absurd h (by simp)
  | some i =>
    rw [hs] at h
    simp only [Except.ok.injEq, Prod.mk.injEq] at h
    rw [← h.2]

/-! ## Concrete fixtures for witnesses and counterexamples -/

/-- A harness state with a bound peer identity and an empty comparator
registry. -/
def sPeer : TesterState := { comparators := fun _ => none, tp_ident := some "peer1" }

/-- A request Envelope previously received, carrying a correlation id. -/
def envReq : Message :=
  { message_type := "x", content := .other "x" "v",
    correlation_id := some "abc123", sender := "peer1" }

/-- The payload sent back in reply. -/
def pReply : Payload := .other "y" "w"

/-- The Envelope `respond sPeer pReply envReq` frames. -/
def msgReply : Message :=
  { message_type := "y", content := .other "y" "w",
    correlation_id := some "abc123", sender := "TransactionProcessorTester" }

/-- C7 witness: a concrete respond call succeeds and the framed Envelope
carries the request's correlation id. -/
theorem respond_copies_correlation_id_witness :
    respond sPeer pReply envReq = .ok ("peer1", msgReply) ∧
      msgReply.correlation_id = envReq.correlation_id :=
  ⟨rfl, respond_copies_correlation_id sPeer pReply envReq "peer1" msgReply rfl⟩

/-- A harness state with an empty comparator registry and no bound
identity. -/
def sEmpty : TesterState := { comparators := fun _ => none, tp_ident := none }

/-- A received wire Envelope of semantic type "g". -/
def wireGet : Message :=
  { message_type := "g", content := .other "g" "val",
    correlation_id := none, sender := "wiresender" }

/-- A received wire Envelope carrying a registration request. -/
def wireReg : Message :=
  { message_type := "tp/register",
    content := .registerRequest "intkey" "1.0" "protobuf" ["1cf126"],
    correlation_id := none, sender := "wiresender" }

/-- A comparator accepting any pair of payloads. -/
def cTrue : Comparator := fun _ _ => true

/-- A comparator accepting two payloads of the same semantic type, even
with different values; it distinguishes registered-comparator dispatch
from the structural-equality fallback. -/
def cTagEq : Comparator := fun a b => to_message_type a = to_message_type b

/-- A registry holding `cTrue` under type "A" only. -/
def sKeyA : TesterState :=
  { comparators := fun t => if t = "A" then some cTrue else none,
    tp_ident := none }

/-- A registry holding `cTagEq` under type "g" only. -/
def sTagG : TesterState :=
  { comparators := fun t => if t = "g" then some cTagEq else none,
    tp_ident := none }

/-- An expected payload of semantic type "A". -/
def pExpA : Payload := .other "A" "x"

/-- An expected payload of type "g" differing from `wireGet`'s value. -/
def pG : Payload := .other "g" "different"

/-- An expected payload structurally identical to `wireGet`'s content. -/
def pGVal : Payload := .other "g" "val"

/-- A received wire Envelope of semantic type "B". -/
def wireB : Message :=
  { message_type := "B", content := .other "B" "y",
    correlation_id := none, sender := "wiresender" }

/-- An expectation list whose first structural match sits at position 1,
with a duplicate at position 2. -/
def lstCand : List Payload :=
  [.other "g" "nope", .other "g" "val", .other "g" "val"]

/-- C1: for a payload type with a registered comparator, `expect`
returns the received Envelope iff the comparator accepts (decoded
actual, expected); when it rejects, `expect` raises UnexpectedMessage
carrying the expected payload and the decoded actual payload. -/
theorem expect_with_registered_comparator (s : TesterState) (c : Comparator)
    (ident : String) (wire : Message) (p : Payload)
    (hwf : to_message_type wire.content = wire.message_type)
    (hp : to_message_type p = to_message_type wire.content)
    (hc : s.comparators (to_message_type wire.content) = some c) :
    (expect s ident wire p = .ok (receive ident wire) ↔
        c wire.content p = true) ∧
      (c wire.content p = false →
        expect s ident wire p = .error (.unexpectedMessage p wire.content)) := by
  rw [expect_eq s ident wire p hwf, compare_of_registered s wire.content p c hc]
  cases hcv : c wire.content p <;> simp

/-- C1 witness: a same-type comparator is registered under "g"; expect
on a value-differing expectation is settled by that comparator. -/
theorem expect_with_registered_comparator_witness :
    cTagEq wireGet.content pG = true ∧
      (expect sTagG "id1" wireGet pG = .ok (receive "id1" wireGet) ↔
        cTagEq wireGet.content pG = true) ∧
      (cTagEq wireGet.content pG = false →
        expect sTagG "id1" wireGet pG =
          .error (.unexpectedMessage pG wireGet.content)) :=
  ⟨by decide,
    (expect_with_registered_comparator sTagG cTagEq "id1" wireGet pG rfl rfl rfl).1,
    (expect_with_registered_comparator sTagG cTagEq "id1" wireGet pG rfl rfl rfl).2⟩

/-- C8: with no comparator registered for the payload type, `expect`
succeeds iff the received decoded payload is structurally identical to
the expected one, and raises UnexpectedMessage for any difference. -/
theorem expect_without_comparator_structural (s : TesterState)
    (ident : String) (wire : Message) (p : Payload)
    (hwf : to_message_type wire.content = wire.message_type)
    (hca : s.comparators (to_message_type wire.content) = none)
    (hce : s.comparators (to_message_type p) = none) :
    (expect s ident wire p = .ok (receive ident wire) ↔ wire.content = p) ∧
      (wire.content ≠ p →
        expect s ident wire p = .error (.unexpectedMessage p wire.content)) := by
  rw [expect_eq s ident wire p hwf, compare_of_unregistered s wire.content p hca]
  by_cases hv : wire.content = p
  · simp [hv]
  · simp [hv]

/-- C8 witness: with an empty registry, a structurally identical
expectation succeeds and the mismatch branch is vacuous. -/
theorem expect_without_comparator_structural_witness :
    wireGet.content = pGVal ∧
      (expect sEmpty "id1" wireGet pGVal = .ok (receive "id1" wireGet) ↔
        wireGet.content = pGVal) ∧
      (wireGet.content ≠ pGVal →
        expect sEmpty "id1" wireGet pGVal =
          .error (.unexpectedMessage pGVal wireGet.content)) :=
  ⟨rfl,
    (expect_without_comparator_structural sEmpty "id1" wireGet pGVal rfl rfl rfl).1,
    (expect_without_comparator_structural sEmpty "id1" wireGet pGVal rfl rfl rfl).2⟩

/-- C6: when the received message's type is not the registration tag,
`register_processor` returns false with the state unchanged (no identity
bound); a later call on a registration-typed message still succeeds and
binds the transport-observed sender identity. -/
theorem register_processor_wrong_type (s : TesterState) (ident : String)
    (wire : Message) (h : wire.message_type ≠ "tp/register") :
    register_processor s ident wire = .ok (false, s) ∧
      ∀ (ident2 : String) (wire2 : Message),
        wire2.message_type = "tp/register" →
        (∃ f v e n, wire2.content = .registerRequest f v e n) →
        register_processor s ident2 wire2 =
          .ok (true, { s with tp_ident := some ident2 }) := by
  constructor
  · simp [register_processor, receive, h]
  · rintro ident2 wire2 ht ⟨f, v, e, n, hc⟩
    simp [register_processor, receive, ht, hc]

/-- C6 witness: a non-registration message leaves the fresh state
unchanged; a subsequent registration message binds the transport
identity. -/
theorem register_processor_wrong_type_witness :
    register_processor sEmpty "id1" wireGet = .ok (false, sEmpty) ∧
      register_processor sEmpty "peer2" wireReg =
        .ok (true, { sEmpty with tp_ident := some "peer2" }) :=
  ⟨(register_processor_wrong_type sEmpty "id1" wireGet (by decide)).1,
    (register_processor_wrong_type sEmpty "id1" wireGet (by decide)).2
      "peer2" wireReg rfl ⟨"intkey", "1.0", "protobuf", ["1cf126"], rfl⟩⟩

/-- C2: at a concrete failing input — an empty expected list — the
no-match branch of `expect_one` evaluates the unbound Python name
`expected_content` (the parameter is `expected_content_list`), so the
call raises a NameError instead of the documented
UnexpectedMessageException carrying the expected and actual values. -/
theorem expect_one_no_match_nameError :
    expect_one sEmpty "id1" wireGet ([] : List Payload) =
      .error (.nameError "expected_content") := rfl

/-- C3: when at least one candidate in the list is accepted by the
applicable comparator, `expect_one` returns the received Envelope paired
with the position of the first accepted candidate; in particular a match
at position 0 shadows one at position 1. -/
theorem expect_one_returns_first_match (s : TesterState) (ident : String)
    (wire : Message) (lst : List Payload)
    (hwf : to_message_type wire.content = wire.message_type)
    (h : ∃ e ∈ lst, compare_ s e wire.content = true) :
    expect_one s ident wire lst =
      .ok (receive ident wire,
        lst.findIdx (fun e => compare_ s e wire.content)) := by
  rw [expect_one_eq s ident wire lst hwf]
  cases hfind : lst.find? (fun e => compare_ s e wire.content) with
  | none =>
    obtain ⟨e, he, hpe⟩ := h
    rw [List.find?_eq_none] at hfind
    exact absurd hpe (by simpa using hfind e he)
  | some a =>
    simp [indexOf_eq_findIdx_of_find? (fun e => compare_ s e wire.content)
      lst a hfind]

/-- C3 witness: with the structural-equality fallback, the first
accepted candidate of `lstCand` sits at position 1 (the duplicate at
position 2 is shadowed), and expect_one returns that index. -/
theorem expect_one_returns_first_match_witness :
    (∃ e ∈ lstCand, compare_ sEmpty e wireGet.content = true) ∧
      lstCand.findIdx (fun e => compare_ sEmpty e wireGet.content) = 1 ∧
      expect_one sEmpty "id1" wireGet lstCand =
        .ok (receive "id1" wireGet,
          lstCand.findIdx (fun e => compare_ sEmpty e wireGet.content)) :=
  ⟨by decide, by decide,
    expect_one_returns_first_match sEmpty "id1" wireGet lstCand rfl (by decide)⟩

/-- C4 counterexample: a comparator accepting every pair of payloads is
registered under the expected payload's semantic type "A", so by the
claim `expect` should succeed; but the received payload has type "B",
and the code keys the comparator lookup on the received payload's type,
falls back to structural equality, and raises UnexpectedMessage. -/
theorem expect_keying_counterexample :
    sKeyA.comparators (to_message_type pExpA) = some cTrue ∧
      cTrue (receive "id1" wireB).content pExpA = true ∧
      expect sKeyA "id1" wireB pExpA =
        .error (.unexpectedMessage pExpA (.other "B" "y")) ∧
      expect sKeyA "id1" wireB pExpA ≠ .ok (receive "id1" wireB) := by
  have hval : expect sKeyA "id1" wireB pExpA =
      .error (.unexpectedMessage pExpA (.other "B" "y")) := rfl
  refine ⟨rfl, rfl, hval, ?_⟩
  rw [hval]
  intro hcontr
  exact Except.noConfusion hcontr

/-- C4 amended: in `expect` the comparator applied is the one keyed by
the decoded actual payload's semantic type, evaluated with the actual
payload first and the expected payload second; in `expect_one` the
comparator for a candidate is keyed by that candidate's (expected)
semantic type, evaluated with the candidate first and the decoded actual
payload second. -/
theorem expect_and_expect_one_keying (s : TesterState) (ident : String)
    (wire : Message)
    (hwf : to_message_type wire.content = wire.message_type) :
    (∀ (c : Comparator) (p : Payload),
        s.comparators (to_message_type wire.content) = some c →
        (expect s ident wire p = .ok (receive ident wire) ↔
          c wire.content p = true)) ∧
      (∀ (d : Comparator) (e : Payload),
        s.comparators (to_message_type e) = some d →
        (expect_one s ident wire [e] = .ok (receive ident wire, 0) ↔
          d e wire.content = true)) := by
  constructor
  · intro c p hc
    rw [expect_eq s ident wire p hwf, compare_of_registered s wire.content p c hc]
    cases hcv : c wire.content p <;> simp
  · intro d e hd
    rw [expect_one_eq s ident wire [e] hwf]
    have hcmp : compare_ s e wire.content = d e wire.content :=
      compare_of_registered s e wire.content d hd
    cases hdv : d e wire.content with
    | true => simp [List.find?, hcmp, hdv, List.indexOf_cons_self]
    | false => simp [List.find?, hcmp, hdv]

/-- C4 witness for the amended claim: `cTagEq` registered under "g" is
exercised through both expect (actual first) and expect_one (candidate
first). -/
theorem expect_and_expect_one_keying_witness :
    (expect sTagG "id1" wireGet pG = .ok (receive "id1" wireGet) ↔
        cTagEq wireGet.content pG = true) ∧
      (expect_one sTagG "id1" wireGet [pG] = .ok (receive "id1" wireGet, 0) ↔
        cTagEq pG wireGet.content = true) :=
  ⟨(expect_and_expect_one_keying sTagG "id1" wireGet rfl).1 cTagEq pG rfl,
    (expect_and_expect_one_keying sTagG "id1" wireGet rfl).2 cTagEq pG rfl⟩

end SawtoothTester
